import Mathlib

/-!
Shallow embedding of the georgieoriginals.com image pipeline and browser modules:
the batch image-optimization script (thumbnail and optimized tiers, savings report),
the Open Graph image and favicon generators (fixed-geometry cover crops), and the
lightbox module (circular navigation, swipe threshold).

JavaScript numbers are modelled as exact rationals, with the special values
Infinity, -Infinity and NaN tracked explicitly where division by zero can produce
them.  Byte counts and pixel dimensions are naturals.  The external resize codec
(sharp) is a black box to the repository; its two resize policies are modelled from
the spec's glossary (bound-fit and cover-crop), while every parameter fed to it
comes from the scripts' configuration objects.
-/

/- ===== optimize-images script: configuration ===== -/

structure OptimizeConfig where
  thumbnailWidth : Nat
  fullSizeWidth : Nat
  thumbnailQuality : Nat
  fullSizeQuality : Nat
deriving DecidableEq

/-- Embeds the CONFIG object of the optimization script (widths and qualities). -/
def CONFIG : OptimizeConfig :=
  { thumbnailWidth := 600, fullSizeWidth := 1200,
    thumbnailQuality := 85, fullSizeQuality := 90 }

/-- Embeds CONFIG.outputDirs: the three output directory paths. -/
def outputDirs : List String :=
  ["./public/images/paintings/originals",
   "./public/images/paintings/thumbs",
   "./public/images/paintings/optimized"]

/- ===== JavaScript number results of the savings computation ===== -/

/-- Result of a JavaScript floating-point computation: a finite rational or one of
the special values produced by division by zero. -/
inductive JSNum where
  | fin : ℚ → JSNum
  | posInf : JSNum
  | negInf : JSNum
  | nan : JSNum
deriving DecidableEq

/-- JavaScript division a / b: finite quotient when b is nonzero, otherwise NaN for
0 / 0 and a signed infinity for nonzero / 0. -/
def jsDiv (a b : ℚ) : JSNum :=
  if b = 0 then (if a = 0 then JSNum.nan else if 0 < a then JSNum.posInf else JSNum.negInf)
  else JSNum.fin (a / b)

/-- JavaScript subtraction 1 - x extended to the special values. -/
def jsOneSub : JSNum → JSNum
  | JSNum.fin q => JSNum.fin (1 - q)
  | JSNum.posInf => JSNum.negInf
  | JSNum.negInf => JSNum.posInf
  | JSNum.nan => JSNum.nan

/-- JavaScript multiplication x * 100 extended to the special values. -/
def jsMul100 : JSNum → JSNum
  | JSNum.fin q => JSNum.fin (q * 100)
  | JSNum.posInf => JSNum.posInf
  | JSNum.negInf => JSNum.negInf
  | JSNum.nan => JSNum.nan

/-- Rendering of n tenths as a decimal string with one digit after the point. -/
def tenthsRender (n : Nat) : String :=
  toString (n / 10) ++ "." ++ toString (n % 10)

/-- Rounding step of toFixed(1): nearest multiple of a tenth, ties toward the
larger value. -/
def roundTenths (q : ℚ) : Int := ⌊q * 10 + 1 / 2⌋

/-- Rendering step of toFixed(1) on a finite value. -/
def fixed1String (q : ℚ) : String :=
  if q < 0 then "-" ++ tenthsRender (roundTenths (-q)).toNat
  else tenthsRender (roundTenths q).toNat

/-- Embeds (x).toFixed(1): the special values render as their IEEE names. -/
def jsToFixed1 : JSNum → String
  | JSNum.fin q => fixed1String q
  | JSNum.posInf => "Infinity"
  | JSNum.negInf => "-Infinity"
  | JSNum.nan => "NaN"

/-- Embeds the savings expression (1 - tierBytes / originalBytes) * 100 from
processImage and from the report totals. -/
def savingsPercent (tierBytes originalBytes : Nat) : JSNum :=
  jsMul100 (jsOneSub (jsDiv (tierBytes : ℚ) (originalBytes : ℚ)))

/- ===== per-file unit of work ===== -/

/-- Embeds getFileSize: a failing stat is caught and degraded to size 0. -/
def getFileSize (statResult : Option Nat) : Nat := statResult.getD 0

/-- Filesystem and codec outcomes for one file's unit of work: the stat of the
source, whether the copy and the two resize-encode-write calls succeed, the stats
of the two produced files, and the error message of a failing step. -/
structure FileEnv where
  statResult : Option Nat
  copyOk : Bool
  thumbOk : Bool
  optOk : Bool
  thumbStat : Option Nat
  optStat : Option Nat
  errMsg : String
deriving DecidableEq

/-- Embeds the record returned by processImage on success. -/
structure ProcResult where
  filename : String
  original : Nat
  thumbnail : Nat
  optimized : Nat
  thumbSavings : String
  optimizedSavings : String
deriving DecidableEq

/-- Embeds the console.error line of processImage's catch block. -/
def errorLog (filename msg : String) : String :=
  "✗ Error processing " ++ filename ++ ": " ++ msg

/-- Embeds processImage: measure the source (degrading to 0), then copy and run the
two resize tiers — any of these three throwing aborts the unit with a log line and
a null result — then re-measure the two outputs (degrading to 0) and compute the
savings strings. -/
def processImage (env : FileEnv) (filename : String) : Option ProcResult × List String :=
  let originalSize := getFileSize env.statResult
  if !env.copyOk then (none, [errorLog filename env.errMsg])
  else if !env.thumbOk then (none, [errorLog filename env.errMsg])
  else if !env.optOk then (none, [errorLog filename env.errMsg])
  else
    let thumbSize := getFileSize env.thumbStat
    let optimizedSize := getFileSize env.optStat
    (some { filename := filename, original := originalSize,
            thumbnail := thumbSize, optimized := optimizedSize,
            thumbSavings := jsToFixed1 (savingsPercent thumbSize originalSize),
            optimizedSavings := jsToFixed1 (savingsPercent optimizedSize originalSize) },
     [])

/-- Embeds Promise.all(imageFiles.map(file => processImage(file))): one independent
unit per file, results in enumeration order. -/
def runBatch (env : String → FileEnv) (files : List String) : List (Option ProcResult) :=
  files.map (fun f => (processImage (env f) f).1)

/-- Embeds results.filter(r => r !== null). -/
def successfulResults (env : String → FileEnv) (files : List String) : List ProcResult :=
  (runBatch env files).filterMap id

/- ===== report fold ===== -/

/-- Embeds the forEach accumulation of totalOriginal, totalThumbs, totalOptimized. -/
def reportTotals (results : List ProcResult) : Nat × Nat × Nat :=
  results.foldl
    (fun acc r => (acc.1 + r.original, acc.2.1 + r.thumbnail, acc.2.2 + r.optimized))
    (0, 0, 0)

/-- Embeds totalThumbSavings: the aggregate savings string printed for thumbnails. -/
def totalThumbSavings (results : List ProcResult) : String :=
  jsToFixed1 (savingsPercent (reportTotals results).2.1 (reportTotals results).1)

/-- Embeds totalOptimizedSavings: the aggregate savings string for optimized files. -/
def totalOptimizedSavings (results : List ProcResult) : String :=
  jsToFixed1 (savingsPercent (reportTotals results).2.2 (reportTotals results).1)

/- ===== formatBytes ===== -/

/-- Embeds the sizes array of formatBytes. -/
def sizes : List String := ["Bytes", "KB", "MB"]

/-- Fuelled floor logarithm base 1024 by repeated division. -/
def unitIndexAux : Nat → Nat → Nat
  | 0, _ => 0
  | fuel + 1, n => if n < 1024 then 0 else unitIndexAux fuel (n / 1024) + 1

/-- Embeds Math.floor(Math.log(bytes) / Math.log(1024)); the floating-point log
ratio is modelled as the exact integer logarithm base 1024. -/
def unitIndex (bytes : Nat) : Nat := unitIndexAux bytes bytes

/-- Rounding step of toFixed(2) applied to bytes / p: hundredths, nearest, ties
toward the larger value. -/
def roundHundredths (bytes p : Nat) : Nat := (200 * bytes + p) / (2 * p)

/-- Rendering of n hundredths after parseFloat: trailing fractional zeros are
stripped, as parseFloat((x).toFixed(2)) re-renders the number minimally. -/
def stripRender (n : Nat) : String :=
  let ip := toString (n / 100)
  let fr := n % 100
  if fr = 0 then ip
  else if fr % 10 = 0 then ip ++ "." ++ toString (fr / 10)
  else ip ++ "." ++ (if fr < 10 then "0" ++ toString fr else toString fr)

/-- Embeds formatBytes: 0 short-circuits to the literal; otherwise the value is
scaled by 1024 to the unit index and suffixed with sizes[i], which falls off the
end of the array (JavaScript undefined, concatenated as "undefined") when the
index reaches 3. -/
def formatBytes (bytes : Nat) : String :=
  if bytes = 0 then "0 Bytes"
  else
    let i := unitIndex bytes
    stripRender (roundHundredths bytes (1024 ^ i)) ++ " " ++ (sizes.get? i).getD "undefined"

/- ===== file selection and main ===== -/

/-- Embeds the regular-expression test for an accepted image extension,
case-insensitive .jpg, .jpeg or .png at the end of the name. -/
def testImageExt (f : String) : Bool :=
  let l := f.data.map Char.toLower
  ((".jpg".data).isSuffixOf l) || ((".jpeg".data).isSuffixOf l) || ((".png".data).isSuffixOf l)

/-- Embeds file.startsWith(".") on the file name's characters. -/
def startsWithDot (f : String) : Bool := f.data.head? == some '.'

/-- Embeds the filter predicate of main's imageFiles selection. -/
def isSelectedImage (f : String) : Bool := testImageExt f && !startsWithDot f

/-- Embeds files.filter of main: the names selected for processing. -/
def imageFiles (files : List String) : List String := files.filter isSelectedImage

/-- Top-level outcomes main depends on: whether each mkdir succeeds and whether the
input directory can be enumerated, plus the per-file outcomes. -/
structure MainEnv where
  mkdirOk : String → Bool
  readdirResult : Option (List String)
  fileEnv : String → FileEnv

/-- Embeds main's try/catch: directory creation or enumeration failing escapes to
the catch block and process.exit(1); otherwise the batch runs, per-file failures
are absorbed as nulls, the report is printed, and the process ends with code 0.
Returns the exit code and the successful results of the report. -/
def mainRun (e : MainEnv) : Nat × List ProcResult :=
  if outputDirs.all e.mkdirOk then
    match e.readdirResult with
    | none => (1, [])
    | some files => (0, successfulResults e.fileEnv (imageFiles files))
  else (1, [])

/- ===== resize policies of the external codec ===== -/

/-- Rounding of a / b to the nearest natural, ties up. -/
def roundDiv (a b : Nat) : Nat := (2 * a + b) / (2 * b)

/-- Modelled from the spec: the bound-fit resize of the external codec (sharp) as
invoked by the gallery tiers with a width bound, fit inside, and the
without-enlargement policy — a source no wider than the bound passes through
unchanged, a wider source is scaled to the bound width with the height scaled
proportionally to the nearest pixel. -/
def resizeInside (bound : Nat) (src : Nat × Nat) : Nat × Nat :=
  if src.1 ≤ bound then src
  else (bound, roundDiv (src.2 * bound) src.1)

/-- Output dimensions of the thumbnail tier (bound CONFIG.thumbnailWidth). -/
def thumbnailDims (src : Nat × Nat) : Nat × Nat := resizeInside CONFIG.thumbnailWidth src

/-- Output dimensions of the optimized tier (bound CONFIG.fullSizeWidth). -/
def optimizedDims (src : Nat × Nat) : Nat × Nat := resizeInside CONFIG.fullSizeWidth src

/-- Rounding of a rational to the nearest integer, ties up. -/
def jsRound (q : ℚ) : Int := ⌊q + 1 / 2⌋

/-- Modelled from the spec: the cover-crop resize of the external codec (sharp) as
invoked by the favicon and OG generators with fit cover and center position — the
source is scaled by the larger of the two target-over-source ratios (enlarging when
that ratio exceeds one), then center-cropped, which cuts each scaled extent down to
at most the target. -/
def coverResize (tw th sw sh : Nat) : Int × Int :=
  let s : ℚ := max ((tw : ℚ) / (sw : ℚ)) ((th : ℚ) / (sh : ℚ))
  (min (tw : Int) (jsRound ((sw : ℚ) * s)), min (th : Int) (jsRound ((sh : ℚ) * s)))

/-- Embeds the og-image CONFIG width. -/
def ogWidth : Nat := 1200

/-- Embeds the og-image CONFIG height. -/
def ogHeight : Nat := 630

/-- Embeds the favicon CONFIG.sizes map. -/
def faviconSizes : List (String × Nat) :=
  [("favicon-16x16.png", 16), ("favicon-32x32.png", 32), ("favicon-48x48.png", 48),
   ("apple-touch-icon.png", 180), ("android-chrome-192x192.png", 192),
   ("android-chrome-512x512.png", 512)]

/-- Every fixed target geometry of the two generators: the OG image, each favicon
size as a square, and the 32x32 favicon.ico produced by createICO. -/
def targetGeometries : List (Nat × Nat) :=
  (ogWidth, ogHeight) :: (faviconSizes.map (fun p => (p.2, p.2)) ++ [(32, 32)])

/- ===== lightbox ===== -/

/-- JavaScript's remainder operator: truncated division remainder. -/
def jsMod (a b : Int) : Int := Int.tmod a b

/-- Embeds Lightbox.next: (currentIndex + 1) % paintings.length. -/
def nextIndex (len i : Int) : Int := jsMod (i + 1) len

/-- Embeds Lightbox.prev: (currentIndex - 1 + paintings.length) % paintings.length. -/
def prevIndex (len i : Int) : Int := jsMod (i - 1 + len) len

/-- Outcome of the swipe handler: navigate forward, navigate backward, or nothing. -/
inductive SwipeAction where
  | goNext : SwipeAction
  | goPrev : SwipeAction
  | stay : SwipeAction
deriving DecidableEq

/-- Embeds Lightbox.handleSwipe with its threshold of 50. -/
def handleSwipe (startX endX : ℚ) : SwipeAction :=
  let swipeThreshold : ℚ := 50
  let diff := startX - endX
  if swipeThreshold < |diff| then
    (if 0 < diff then SwipeAction.goNext else SwipeAction.goPrev)
  else SwipeAction.stay

/- ===== concrete environments used by witnesses and counterexamples ===== -/

/-- Unit environment where both copy and the encodes succeed but the re-measure
stat of the thumbnail fails. -/
def remeasureFailEnv : FileEnv :=
  { statResult := some 1000, copyOk := true, thumbOk := true, optOk := true,
    thumbStat := none, optStat := some 100, errMsg := "EIO" }

/-- Batch environment where exactly corrupt.jpg fails (at the thumbnail encode). -/
def batchEnvW : String → FileEnv := fun g =>
  if g = "corrupt.jpg" then
    { statResult := some 500, copyOk := true, thumbOk := false, optOk := true,
      thumbStat := some 0, optStat := some 0, errMsg := "bad image" }
  else
    { statResult := some 1000, copyOk := true, thumbOk := true, optOk := true,
      thumbStat := some 100, optStat := some 300, errMsg := "" }

/-- A successful report row used to instantiate the aggregate-arithmetic claim. -/
def sampleResult : ProcResult :=
  { filename := "a.jpg", original := 1000, thumbnail := 100, optimized := 300,
    thumbSavings := "90.0", optimizedSavings := "70.0" }

/-- Main environment where setup succeeds and the listing holds one image and one
hidden file. -/
def mainEnvW : MainEnv :=
  { mkdirOk := fun _ => true,
    readdirResult := some ["good.jpg", ".DS_Store"],
    fileEnv := fun _ =>
      { statResult := some 1000, copyOk := true, thumbOk := true, optOk := true,
        thumbStat := some 100, optStat := some 300, errMsg := "" } }

/- ===== helper lemmas ===== -/

theorem roundDiv_close (a w : Nat) (hw : 0 < w) :
    2 * (((roundDiv a w : Int)) * w - a).natAbs ≤ w := by
  have h1 : 2 * w * ((2 * a + w) / (2 * w)) + (2 * a + w) % (2 * w) = 2 * a + w :=
    Nat.div_add_mod (2 * a + w) (2 * w)
  have hr : (2 * a + w) % (2 * w) < 2 * w := Nat.mod_lt _ (by omega)
  unfold roundDiv
  set q : Nat := (2 * a + w) / (2 * w) with hq
  set r : Nat := (2 * a + w) % (2 * w) with hrr
  have h2 := congrArg (Nat.cast : Nat → Int) h1
  push_cast at h2
  have key : 2 * ((q : Int) * w - a) = (w : Int) - r := by linear_combination h2
  set x : Int := (q : Int) * w - a with hx
  omega

theorem resizeInside_of_le {bound : Nat} {src : Nat × Nat} (h : src.1 ≤ bound) :
    resizeInside bound src = src := by
  simp [resizeInside, h]

theorem resizeInside_of_gt {bound : Nat} {src : Nat × Nat} (h : bound < src.1) :
    resizeInside bound src = (bound, roundDiv (src.2 * bound) src.1) := by
  simp [resizeInside, not_le.mpr h]

/- ===== C1 ===== -/

/-- C1: for each gallery resize tier (thumbnail bound 600, optimized bound 1200), a
source strictly narrower than the bound keeps its width unchanged (the resize never
enlarges), and a source wider than the bound is output at exactly the bound width
with the aspect ratio preserved to the nearest pixel. -/
theorem c1_gallery_tiers_no_enlargement (src : Nat × Nat) :
    (src.1 < CONFIG.thumbnailWidth → thumbnailDims src = src) ∧
    (CONFIG.thumbnailWidth < src.1 →
      (thumbnailDims src).1 = CONFIG.thumbnailWidth ∧
      2 * (((thumbnailDims src).2 : Int) * src.1 - (src.2 : Int) * CONFIG.thumbnailWidth).natAbs
        ≤ src.1) ∧
    (src.1 < CONFIG.fullSizeWidth → optimizedDims src = src) ∧
    (CONFIG.fullSizeWidth < src.1 →
      (optimizedDims src).1 = CONFIG.fullSizeWidth ∧
      2 * (((optimizedDims src).2 : Int) * src.1 - (src.2 : Int) * CONFIG.fullSizeWidth).natAbs
        ≤ src.1) := by
  refine ⟨fun h => resizeInside_of_le h.le, fun h => ?_,
          fun h => resizeInside_of_le h.le, fun h => ?_⟩
  · have hpos : 0 < src.1 := by omega
    rw [thumbnailDims, resizeInside_of_gt h]
    refine ⟨rfl, ?_⟩
    have hc := roundDiv_close (src.2 * CONFIG.thumbnailWidth) src.1 hpos
    push_cast at hc ⊢
    exact hc
  · have hpos : 0 < src.1 := by omega
    rw [optimizedDims, resizeInside_of_gt h]
    refine ⟨rfl, ?_⟩
    have hc := roundDiv_close (src.2 * CONFIG.fullSizeWidth) src.1 hpos
    push_cast at hc ⊢
    exact hc

/-- C1 witness: a 300-wide source passes the 600 tier unchanged; a 2000-wide source
comes out of the 1200 tier at exactly 1200 wide. -/
theorem c1_witness :
    ((300, 200) : Nat × Nat).1 < CONFIG.thumbnailWidth ∧
    thumbnailDims (300, 200) = (300, 200) ∧
    CONFIG.fullSizeWidth < ((2000, 1000) : Nat × Nat).1 ∧
    (optimizedDims (2000, 1000)).1 = CONFIG.fullSizeWidth :=
  ⟨by decide, (c1_gallery_tiers_no_enlargement (300, 200)).1 (by decide),
   by decide, ((c1_gallery_tiers_no_enlargement (2000, 1000)).2.2.2 (by decide)).1⟩

/- ===== C9 ===== -/

/-- C9: with n paintings (n positive) and an in-range current index i, next moves to
(i + 1) mod n and prev to (i - 1 + n) mod n; both results stay in range, next wraps
the last index to 0, prev wraps 0 to n - 1, and next and prev are mutually inverse. -/
theorem c9_lightbox_navigation (n i : Int) (hn : 0 < n) (h0 : 0 ≤ i) (hi : i < n) :
    (0 ≤ nextIndex n i ∧ nextIndex n i < n) ∧
    (0 ≤ prevIndex n i ∧ prevIndex n i < n) ∧
    nextIndex n (n - 1) = 0 ∧
    prevIndex n 0 = n - 1 ∧
    prevIndex n (nextIndex n i) = i ∧
    nextIndex n (prevIndex n i) = i := by
  have hne : n ≠ 0 := ne_of_gt hn
  have hnn : 0 ≤ n := le_of_lt hn
  have e1 : nextIndex n i = (i + 1) % n := by
    simp only [nextIndex, jsMod]
    exact Int.tmod_eq_emod (by omega) hnn
  have e2 : prevIndex n i = (i - 1 + n) % n := by
    simp only [prevIndex, jsMod]
    exact Int.tmod_eq_emod (by omega) hnn
  have hnx : 0 ≤ nextIndex n i ∧ nextIndex n i < n := by
    rw [e1]
    exact ⟨Int.emod_nonneg _ hne, Int.emod_lt_of_pos _ hn⟩
  have hpv : 0 ≤ prevIndex n i ∧ prevIndex n i < n := by
    rw [e2]
    exact ⟨Int.emod_nonneg _ hne, Int.emod_lt_of_pos _ hn⟩
  refine ⟨hnx, hpv, ?_, ?_, ?_, ?_⟩
  · simp only [nextIndex, jsMod]
    have hsub : n - 1 + 1 = n := by ring
    rw [hsub, Int.tmod_eq_emod hnn hnn, Int.emod_self]
  · simp only [prevIndex, jsMod]
    have hsub : (0 : Int) - 1 + n = n - 1 := by ring
    rw [hsub, Int.tmod_eq_emod (by omega) hnn, Int.emod_eq_of_lt (by omega) (by omega)]
  · rw [e1]
    have ha0 : 0 ≤ (i + 1) % n := Int.emod_nonneg _ hne
    simp only [prevIndex, jsMod]
    rw [Int.tmod_eq_emod (by omega) hnn]
    have hdvd : n ∣ ((i + 1) % n - 1 + n) - i := by
      refine ⟨1 - (i + 1) / n, ?_⟩
      rw [Int.emod_def]
      ring
    have hcong := Int.emod_eq_emod_iff_emod_sub_eq_zero.mpr (Int.emod_eq_zero_of_dvd hdvd)
    rw [hcong, Int.emod_eq_of_lt h0 hi]
  · rw [e2]
    have hb0 : 0 ≤ (i - 1 + n) % n := Int.emod_nonneg _ hne
    simp only [nextIndex, jsMod]
    rw [Int.tmod_eq_emod (by omega) hnn]
    have hdvd : n ∣ ((i - 1 + n) % n + 1) - i := by
      refine ⟨1 - (i - 1 + n) / n, ?_⟩
      rw [Int.emod_def]
      ring
    have hcong := Int.emod_eq_emod_iff_emod_sub_eq_zero.mpr (Int.emod_eq_zero_of_dvd hdvd)
    rw [hcong, Int.emod_eq_of_lt h0 hi]

/-- C9 witness: five paintings, current index 2 — next then prev restores 2. -/
theorem c9_witness :
    (0 : Int) < 5 ∧ (0 : Int) ≤ 2 ∧ (2 : Int) < 5 ∧
    prevIndex 5 (nextIndex 5 2) = 2 :=
  ⟨by decide, by decide, by decide,
   (c9_lightbox_navigation 5 2 (by decide) (by decide) (by decide)).2.2.2.2.1⟩

/- ===== C10 ===== -/

/-- C10: the swipe handler navigates exactly when the horizontal travel exceeds the
50 threshold — next when startX - endX > 50, previous when endX - startX > 50, and
no navigation when the absolute difference is at most 50. -/
theorem c10_swipe_threshold (startX endX : ℚ) :
    (handleSwipe startX endX = SwipeAction.goNext ↔ 50 < startX - endX) ∧
    (handleSwipe startX endX = SwipeAction.goPrev ↔ 50 < endX - startX) ∧
    (handleSwipe startX endX = SwipeAction.stay ↔ |startX - endX| ≤ 50) := by
  simp only [handleSwipe]
  split_ifs with h1 h2
  · have hd : 50 < startX - endX := by
      rcases lt_abs.mp h1 with h | h
      · exact h
      · linarith
    refine ⟨⟨fun _ => hd, fun _ => rfl⟩, ⟨fun h => ?_, fun h => ?_⟩, ⟨fun h => ?_, fun h => ?_⟩⟩
    · exact absurd h (by decide)
    · exact absurd h (by linarith)
    · exact absurd h (by decide)
    · exact absurd h (not_le.mpr h1)
  · have hd : 50 < endX - startX := by
      rcases lt_abs.mp h1 with h | h
      · exact absurd h (by linarith)
      · linarith
    refine ⟨⟨fun h => ?_, fun h => ?_⟩, ⟨fun _ => hd, fun _ => rfl⟩, ⟨fun h => ?_, fun h => ?_⟩⟩
    · exact absurd h (by decide)
    · exact absurd h (by linarith)
    · exact absurd h (by decide)
    · exact absurd h (not_le.mpr h1)
  · have habs : |startX - endX| ≤ 50 := not_lt.mp h1
    refine ⟨⟨fun h => ?_, fun h => ?_⟩, ⟨fun h => ?_, fun h => ?_⟩, ⟨fun _ => habs, fun _ => rfl⟩⟩
    · exact absurd h (by decide)
    · exact absurd h (by linarith [le_abs_self (startX - endX)])
    · exact absurd h (by decide)
    · exact absurd h (by linarith [neg_abs_le (startX - endX)])

/-- C10 witness: a 100-pixel leftward travel navigates to the next painting. -/
theorem c10_witness :
    handleSwipe 100 0 = SwipeAction.goNext ↔ 50 < (100 : ℚ) - 0 :=
  (c10_swipe_threshold 100 0).1

/- ===== C2 ===== -/

/-- C2 counterexample: with a measured original size of 0 the code's savings string
is the IEEE artifact "NaN" (when the tier size is also 0) or "-Infinity" (when the
tier size is positive), a not-a-number or infinite result rather than a defined
fallback value. -/
theorem c2_counterexample :
    jsToFixed1 (savingsPercent 0 0) = "NaN" ∧
    jsToFixed1 (savingsPercent 5 0) = "-Infinity" := by
  constructor
  · decide
  · decide

/-- C2 amended: when the measured original size is 0 the savings computation raises
no error — JavaScript division by zero is total — but it yields no defined fallback
either: the result is NaN when the tier size is 0 and negative infinity otherwise. -/
theorem c2_zero_original_savings (tierBytes : Nat) :
    savingsPercent tierBytes 0 =
      (if tierBytes = 0 then JSNum.nan else JSNum.negInf) := by
  by_cases h : tierBytes = 0
  · subst h
    simp [savingsPercent, jsDiv, jsOneSub, jsMul100]
  · have h2 : ((tierBytes : ℚ)) ≠ 0 := Nat.cast_ne_zero.mpr h
    have h3 : 0 < (tierBytes : ℚ) := by
      exact_mod_cast Nat.pos_of_ne_zero h
    simp [savingsPercent, jsDiv, jsOneSub, jsMul100, h, h2, h3]

/-- C2 witness: a 3-byte tier over a 0-byte original evaluates to negative infinity. -/
theorem c2_witness :
    savingsPercent 3 0 = (if (3 : Nat) = 0 then JSNum.nan else JSNum.negInf) :=
  c2_zero_original_savings 3

/- ===== C5 ===== -/

theorem unitIndexAux_bounds (fuel : Nat) :
    ∀ n : Nat, 0 < n → n ≤ fuel →
      1024 ^ unitIndexAux fuel n ≤ n ∧ n < 1024 ^ (unitIndexAux fuel n + 1) := by
  induction fuel with
  | zero =>
    intro n h1 h2
    omega
  | succ fuel ih =>
    intro n h1 h2
    by_cases hlt : n < 1024
    · simp only [unitIndexAux, if_pos hlt, pow_zero, pow_one]
      omega
    · have hge : 1024 ≤ n := not_lt.mp hlt
      have hn2 : 0 < n / 1024 := Nat.div_pos hge (by norm_num)
      have hf : n / 1024 ≤ fuel := by
        have hlt2 : n / 1024 < n := Nat.div_lt_self h1 (by norm_num)
        omega
      obtain ⟨hl, hr⟩ := ih (n / 1024) hn2 hf
      have heq : unitIndexAux (fuel + 1) n = unitIndexAux fuel (n / 1024) + 1 := by
        simp [unitIndexAux, hlt]
      rw [heq]
      constructor
      · rw [pow_succ]
        calc 1024 ^ unitIndexAux fuel (n / 1024) * 1024 ≤ (n / 1024) * 1024 :=
              Nat.mul_le_mul_right _ hl
          _ ≤ n := Nat.div_mul_le_self n 1024
      · have h4 : n < 1024 ^ (unitIndexAux fuel (n / 1024) + 1) * 1024 :=
          (Nat.div_lt_iff_lt_mul (by norm_num)).mp hr
        calc n < 1024 ^ (unitIndexAux fuel (n / 1024) + 1) * 1024 := h4
          _ = 1024 ^ (unitIndexAux fuel (n / 1024) + 1 + 1) := (pow_succ _ _).symm

theorem unitIndex_bounds (bytes : Nat) (h : 0 < bytes) :
    1024 ^ unitIndex bytes ≤ bytes ∧ bytes < 1024 ^ (unitIndex bytes + 1) :=
  unitIndexAux_bounds bytes bytes h le_rfl

/-- C5 counterexample: at 2147483648 bytes the unit index is 3, past the end of the
Bytes/KB/MB table, so formatBytes yields "2 undefined" — no listed unit is appended,
and the value is not rendered with two decimal places. -/
theorem c5_counterexample :
    formatBytes 2147483648 = "2 undefined" ∧
    (sizes.all (fun u => !((u.data).isSuffixOf ("2 undefined".data)))) = true := by
  constructor
  · decide
  · decide

/-- C5 amended: 0 formats as the literal "0 Bytes" without scaling; for positive
byte counts the unit index is the exact floor logarithm base 1024 (so within the
table it is the largest of Bytes, KB, MB in which the scaled value is at least 1);
for counts below 1024^3 the output is the scaled value rounded to hundredths with
trailing fractional zeros stripped by the parseFloat step (so not always two decimal
places) and the indexed unit appended; for counts of 1024^3 and above the index runs
past the three-entry table and the appended unit renders as "undefined". -/
theorem c5_format_bytes_behavior (bytes : Nat) :
    formatBytes 0 = "0 Bytes" ∧
    (0 < bytes →
      1024 ^ unitIndex bytes ≤ bytes ∧
      bytes < 1024 ^ (unitIndex bytes + 1) ∧
      (bytes < 1024 ^ 3 →
        unitIndex bytes < 3 ∧
        ∃ u, sizes.get? (unitIndex bytes) = some u ∧
          formatBytes bytes =
            stripRender (roundHundredths bytes (1024 ^ unitIndex bytes)) ++ " " ++ u) ∧
      (1024 ^ 3 ≤ bytes →
        formatBytes bytes =
          stripRender (roundHundredths bytes (1024 ^ unitIndex bytes)) ++ " " ++ "undefined")) := by
  refine ⟨rfl, fun h => ?_⟩
  obtain ⟨hl, hr⟩ := unitIndex_bounds bytes h
  have hne : bytes ≠ 0 := by omega
  have hfb : formatBytes bytes =
      stripRender (roundHundredths bytes (1024 ^ unitIndex bytes)) ++ " " ++
        (sizes.get? (unitIndex bytes)).getD "undefined" := by
    simp [formatBytes, hne]
  refine ⟨hl, hr, fun hsmall => ?_, fun hbig => ?_⟩
  · have hi3 : unitIndex bytes < 3 := by
      by_contra hc
      push_neg at hc
      have hp : (1024 : Nat) ^ 3 ≤ 1024 ^ unitIndex bytes := Nat.pow_le_pow_right (by norm_num) hc
      omega
    refine ⟨hi3, ?_⟩
    have hsplit : unitIndex bytes = 0 ∨ unitIndex bytes = 1 ∨ unitIndex bytes = 2 := by omega
    rcases hsplit with h0 | h1 | h2
    · rw [h0] at hfb ⊢
      exact ⟨"Bytes", rfl, hfb⟩
    · rw [h1] at hfb ⊢
      exact ⟨"KB", rfl, hfb⟩
    · rw [h2] at hfb ⊢
      exact ⟨"MB", rfl, hfb⟩
  · have hi3 : 3 ≤ unitIndex bytes := by
      by_contra hc
      push_neg at hc
      have hp : (1024 : Nat) ^ (unitIndex bytes + 1) ≤ 1024 ^ 3 :=
        Nat.pow_le_pow_right (by norm_num) (by omega)
      omega
    have hnone : sizes.get? (unitIndex bytes) = none := by
      apply List.get?_eq_none.mpr
      simp only [sizes, List.length_cons, List.length_nil]
      omega
    rw [hfb, hnone]
    rfl

/-- C5 witness: 1536 bytes scale to the KB tier, with unit index 1. -/
theorem c5_witness :
    ((0 : Nat) < 1536 ∧ (1536 : Nat) < 1024 ^ 3) ∧
    1024 ^ unitIndex 1536 ≤ 1536 ∧ unitIndex 1536 < 3 :=
  ⟨⟨by decide, by decide⟩,
   ((c5_format_bytes_behavior 1536).2 (by decide)).1,
   ((((c5_format_bytes_behavior 1536).2 (by decide)).2.2.1) (by decide)).1⟩

/- ===== C6 ===== -/

theorem isSelectedImage_iff (f : String) :
    isSelectedImage f = true ↔
      ((∃ ext, ext ∈ ([".jpg", ".jpeg", ".png"] : List String) ∧
        ∃ pre, f.data.map Char.toLower = pre ++ ext.data) ∧
      f.data.head? ≠ some '.') := by
  have hsfx : ∀ ext : String,
      ((ext.data).isSuffixOf (f.data.map Char.toLower)) = true ↔
        ∃ pre, f.data.map Char.toLower = pre ++ ext.data := by
    intro ext
    rw [List.isSuffixOf_iff_suffix]
    exact ⟨fun hs => by obtain ⟨t, ht⟩ := hs; exact ⟨t, ht.symm⟩,
           fun hs => by obtain ⟨t, ht⟩ := hs; exact ⟨t, ht.symm⟩⟩
  simp only [isSelectedImage, testImageExt, startsWithDot, Bool.and_eq_true,
    Bool.or_eq_true, Bool.not_eq_true', beq_eq_false_iff_ne, hsfx]
  constructor
  · rintro ⟨hext, hdot⟩
    refine ⟨?_, hdot⟩
    rcases hext with (⟨pre, hp⟩ | ⟨pre, hp⟩) | ⟨pre, hp⟩
    · exact ⟨".jpg", by simp, pre, hp⟩
    · exact ⟨".jpeg", by simp, pre, hp⟩
    · exact ⟨".png", by simp, pre, hp⟩
  · rintro ⟨⟨ext, hm, pre, hp⟩, hdot⟩
    refine ⟨?_, hdot⟩
    simp only [List.mem_cons, List.not_mem_nil, or_false] at hm
    rcases hm with rfl | rfl | rfl
    · exact Or.inl (Or.inl ⟨pre, hp⟩)
    · exact Or.inl (Or.inr ⟨pre, hp⟩)
    · exact Or.inr ⟨pre, hp⟩

/-- C6: a directory entry is selected for processing exactly when, compared
case-insensitively, its name ends in .jpg, .jpeg or .png and its first character is
not the hidden-file dot. -/
theorem c6_image_file_selection (files : List String) (f : String) :
    f ∈ imageFiles files ↔
      f ∈ files ∧
      ((∃ ext, ext ∈ ([".jpg", ".jpeg", ".png"] : List String) ∧
        ∃ pre, f.data.map Char.toLower = pre ++ ext.data) ∧
      f.data.head? ≠ some '.') := by
  rw [imageFiles, List.mem_filter, isSelectedImage_iff]

/-- C6 witness: the selection criterion instantiated at an upper-case name in a
listing with a hidden file and a text file. -/
theorem c6_witness :
    "Painting.JPG" ∈ imageFiles ["Painting.JPG", ".hidden.jpg", "notes.txt"] ↔
      ("Painting.JPG" ∈ (["Painting.JPG", ".hidden.jpg", "notes.txt"] : List String) ∧
       ((∃ ext, ext ∈ ([".jpg", ".jpeg", ".png"] : List String) ∧
         ∃ pre, "Painting.JPG".data.map Char.toLower = pre ++ ext.data) ∧
        "Painting.JPG".data.head? ≠ some '.')) :=
  c6_image_file_selection ["Painting.JPG", ".hidden.jpg", "notes.txt"] "Painting.JPG"

/- ===== C3 ===== -/

theorem processImage_none_iff (e : FileEnv) (fn : String) :
    (processImage e fn).1 = none ↔ (e.copyOk && e.thumbOk && e.optOk) = false := by
  unfold processImage
  cases hc : e.copyOk <;> cases ht : e.thumbOk <;> cases ho : e.optOk <;> simp

theorem processImage_fail_log (e : FileEnv) (fn : String)
    (hfail : (processImage e fn).1 = none) :
    (processImage e fn).2 = [errorLog fn e.errMsg] := by
  unfold processImage at hfail ⊢
  cases hc : e.copyOk <;> cases ht : e.thumbOk <;> cases ho : e.optOk <;> simp_all

theorem successfulResults_eq_filterMap (env : String → FileEnv) (files : List String) :
    successfulResults env files = files.filterMap (fun g => (processImage (env g) g).1) := by
  unfold successfulResults runBatch
  rw [List.filterMap_map]
  rfl

/-- C3 counterexample: a failing re-measure stat of a produced file does not fail
the unit — processImage still returns a result, with the unmeasurable size degraded
to 0, and logs nothing — contradicting the claim that a re-measure failure yields a
null result and a logged message. -/
theorem c3_counterexample :
    (processImage remeasureFailEnv "a.jpg").1 ≠ none ∧
    (processImage remeasureFailEnv "a.jpg").2 = [] ∧
    ((processImage remeasureFailEnv "a.jpg").1.map ProcResult.thumbnail) = some 0 := by
  refine ⟨?_, rfl, rfl⟩
  intro hc
  simp [processImage, remeasureFailEnv] at hc

/-- C3 amended: a unit yields a null result and a log line naming the file exactly
when the copy or one of the two resize-encode steps fails (a re-measure stat failure
degrades to size 0 instead); in a batch, a failing file contributes nothing to the
successful results — removing it leaves them unchanged — while every succeeding
file's result still appears. -/
theorem c3_batch_isolation (env : String → FileEnv) (files : List String) (f : String)
    (hfail : (processImage (env f) f).1 = none) :
    successfulResults env files = successfulResults env (files.filter (fun g => g != f)) ∧
    (∀ g, g ∈ files → ∀ r, (processImage (env g) g).1 = some r →
      r ∈ successfulResults env files) ∧
    (processImage (env f) f).2 = [errorLog f (env f).errMsg] ∧
    (∀ e fn, ((processImage e fn).1 = none ↔ (e.copyOk && e.thumbOk && e.optOk) = false)) := by
  refine ⟨?_, ?_, processImage_fail_log _ _ hfail, processImage_none_iff⟩
  · rw [successfulResults_eq_filterMap, successfulResults_eq_filterMap]
    induction files with
    | nil => rfl
    | cons g gs ih =>
      by_cases hg : g = f
      · subst hg
        rw [List.filter_cons]
        simp only [bne_self_eq_false, Bool.false_eq_true, if_false]
        rw [List.filterMap_cons, hfail]
        exact ih
      · rw [List.filter_cons]
        have hbne : (g != f) = true := bne_iff_ne.mpr hg
        simp only [hbne, if_true]
        rw [List.filterMap_cons, List.filterMap_cons]
        cases hpg : (processImage (env g) g).1 with
        | none => exact ih
        | some r => rw [ih]
  · intro g hg r hr
    rw [successfulResults_eq_filterMap]
    exact List.mem_filterMap.mpr ⟨g, hg, hr⟩

/-- C3 witness: in a two-file batch where corrupt.jpg fails its thumbnail encode,
the successful results equal those of the batch without corrupt.jpg. -/
theorem c3_witness :
    (processImage (batchEnvW "corrupt.jpg") "corrupt.jpg").1 = none ∧
    successfulResults batchEnvW ["good.jpg", "corrupt.jpg"] =
      successfulResults batchEnvW
        (["good.jpg", "corrupt.jpg"].filter (fun g => g != "corrupt.jpg")) :=
  ⟨rfl, (c3_batch_isolation batchEnvW ["good.jpg", "corrupt.jpg"] "corrupt.jpg" rfl).1⟩

/- ===== C4 ===== -/

theorem reportTotals_foldl (results : List ProcResult) (a b c : Nat) :
    results.foldl
      (fun acc r => (acc.1 + r.original, acc.2.1 + r.thumbnail, acc.2.2 + r.optimized))
      (a, b, c)
      = (a + (results.map ProcResult.original).sum,
         b + (results.map ProcResult.thumbnail).sum,
         c + (results.map ProcResult.optimized).sum) := by
  induction results generalizing a b c with
  | nil => simp
  | cons r rs ih =>
    simp only [List.foldl_cons, List.map_cons, List.sum_cons]
    rw [ih]
    simp [Nat.add_assoc]

/-- C4: the printed totals are the sums of the individual successful results'
original, thumbnail and optimized sizes, and each aggregate savings string is
(1 - totalTier / totalOriginal) * 100 rounded to one decimal place. -/
theorem c4_aggregate_report (results : List ProcResult) :
    (reportTotals results).1 = (results.map ProcResult.original).sum ∧
    (reportTotals results).2.1 = (results.map ProcResult.thumbnail).sum ∧
    (reportTotals results).2.2 = (results.map ProcResult.optimized).sum ∧
    ((results.map ProcResult.original).sum ≠ 0 →
      totalThumbSavings results =
        fixed1String ((1 - ((results.map ProcResult.thumbnail).sum : ℚ) /
          ((results.map ProcResult.original).sum : ℚ)) * 100) ∧
      totalOptimizedSavings results =
        fixed1String ((1 - ((results.map ProcResult.optimized).sum : ℚ) /
          ((results.map ProcResult.original).sum : ℚ)) * 100)) := by
  have htot : reportTotals results =
      ((results.map ProcResult.original).sum,
       (results.map ProcResult.thumbnail).sum,
       (results.map ProcResult.optimized).sum) := by
    unfold reportTotals
    rw [reportTotals_foldl]
    simp
  refine ⟨by rw [htot], by rw [htot], by rw [htot], fun hne => ?_⟩
  have hq : (((results.map ProcResult.original).sum : ℚ)) ≠ 0 := Nat.cast_ne_zero.mpr hne
  constructor
  · unfold totalThumbSavings
    rw [htot]
    simp only [savingsPercent, jsDiv, if_neg hq, jsOneSub, jsMul100, jsToFixed1]
  · unfold totalOptimizedSavings
    rw [htot]
    simp only [savingsPercent, jsDiv, if_neg hq, jsOneSub, jsMul100, jsToFixed1]

/-- C4 witness: the aggregate savings relation instantiated at a one-row report. -/
theorem c4_witness :
    (([sampleResult].map ProcResult.original).sum ≠ 0) ∧
    totalThumbSavings [sampleResult] =
      fixed1String ((1 - (([sampleResult].map ProcResult.thumbnail).sum : ℚ) /
        (([sampleResult].map ProcResult.original).sum : ℚ)) * 100) :=
  ⟨by decide, ((c4_aggregate_report [sampleResult]).2.2.2 (by decide)).1⟩

/- ===== C7 ===== -/

theorem jsRound_ge (t o : Nat) (s : ℚ) (ho : 0 < o) (hs : (t : ℚ) / (o : ℚ) ≤ s) :
    (t : Int) ≤ jsRound ((o : ℚ) * s) := by
  have hop : (0 : ℚ) < (o : ℚ) := by exact_mod_cast ho
  have h1 : (t : ℚ) ≤ (o : ℚ) * s := by
    rw [div_le_iff₀ hop] at hs
    linarith
  rw [jsRound, Int.le_floor]
  push_cast
  linarith

/-- C7: every configured favicon and OG geometry is produced at exactly the
configured width and height for any positive source dimensions: the cover scale
factor reaches at least the target extent on both axes (enlarging when the source
is smaller), and the center crop then cuts each axis to exactly the target. -/
theorem c7_cover_exact_geometry (sw sh : Nat) (hsw : 0 < sw) (hsh : 0 < sh)
    (g : Nat × Nat) (_hg : g ∈ targetGeometries) :
    coverResize g.1 g.2 sw sh = ((g.1 : Int), (g.2 : Int)) := by
  simp only [coverResize]
  have h1 : (g.1 : Int) ≤
      jsRound ((sw : ℚ) * max ((g.1 : ℚ) / (sw : ℚ)) ((g.2 : ℚ) / (sh : ℚ))) :=
    jsRound_ge g.1 sw _ hsw (le_max_left _ _)
  have h2 : (g.2 : Int) ≤
      jsRound ((sh : ℚ) * max ((g.1 : ℚ) / (sw : ℚ)) ((g.2 : ℚ) / (sh : ℚ))) :=
    jsRound_ge g.2 sh _ hsh (le_max_right _ _)
  rw [min_eq_left h1, min_eq_left h2]

/-- C7 witness: a 100 by 50 source comes out of the OG geometry at exactly
1200 by 630. -/
theorem c7_witness :
    ((0 : Nat) < 100 ∧ (0 : Nat) < 50 ∧ ((1200, 630) : Nat × Nat) ∈ targetGeometries) ∧
    coverResize 1200 630 100 50 = ((1200 : Int), (630 : Int)) :=
  ⟨⟨by decide, by decide, by decide⟩,
   c7_cover_exact_geometry 100 50 (by decide) (by decide) (1200, 630) (by decide)⟩

/- ===== C8 ===== -/

/-- C8: the batch script exits with code 0 exactly when every output directory is
created and the input directory is enumerated — independently of any per-file
outcomes — and with code 1 otherwise. -/
theorem c8_exit_code (e : MainEnv) :
    (mainRun e).1 = (if (outputDirs.all e.mkdirOk && e.readdirResult.isSome) then 0 else 1) ∧
    (∀ fe, (mainRun { e with fileEnv := fe }).1 = (mainRun e).1) := by
  constructor
  · unfold mainRun
    cases hr : e.readdirResult <;> cases hm : outputDirs.all e.mkdirOk <;> simp
  · intro fe
    cases hr : e.readdirResult <;> cases hm : outputDirs.all e.mkdirOk <;>
      simp [mainRun, hr, hm]

/-- C8 witness: the exit-code characterization instantiated at a fully succeeding
environment. -/
theorem c8_witness :
    (mainRun mainEnvW).1 =
      (if (outputDirs.all mainEnvW.mkdirOk && mainEnvW.readdirResult.isSome) then 0 else 1) :=
  (c8_exit_code mainEnvW).1
